import Mathlib

/-!
Verification of the bootstrap/retry and routing/auth composition subsystem of
the `rust-axum` service (`src/rust-axum/src/main.rs`).

The embedding is shallow: the connection attempt performed by
`PgPoolOptions::...::connect(&database_url).await` on attempt number `n` is
abstracted as an oracle `connect : Nat → Except E P` (error type `E`, pool
type `P`); everything else (the loop counters, the backoff arithmetic, the
sleep schedule, the env parsing, the route table construction and the
dispatch through the auth middleware) is translated directly from the source.
-/

namespace RustAxum

/-- Source: `const MAX_RETRIES: u32 = 10;`. -/
def MAX_RETRIES : Nat := 10

/-- Outcome of the bootstrap retry loop: either the pool obtained by `break pool`
together with the final value of `attempt` and the list of sleep durations (in
seconds, in order) performed before it, or the error returned by
`return Err(e.into())` with the same bookkeeping. -/
inductive BootResult (E P : Type) where
  | ok (pool : P) (attempt : Nat) (sleeps : List Nat)
  | err (e : E) (attempt : Nat) (sleeps : List Nat)
deriving DecidableEq, Repr

/-- The sleep durations recorded in a `BootResult`. -/
def sleepsOf {E P : Type} : BootResult E P → List Nat
  | .ok _ _ s => s
  | .err _ _ s => s

/-- The final attempt counter recorded in a `BootResult`. -/
def attemptsOf {E P : Type} : BootResult E P → Nat
  | .ok _ a _ => a
  | .err _ a _ => a

/-- Source, lines 67-99: the body of `let pool = loop { ... }` after the
`attempt += 1` increment, so `attempt` here is the number of the attempt being
made (first iteration has `attempt = 1`). `retry_delay` is the current backoff
delay. `sleeps` accumulates the durations passed to `tokio::time::sleep`.
`fuel` is only a structural-recursion bound: the loop exits no later than
`attempt = MAX_RETRIES` via the `attempt >= MAX_RETRIES` check, so starting
with `fuel = MAX_RETRIES` at `attempt = 1` the `fuel = 0` fallback is never
reached (each recursive call decreases both `fuel` and `MAX_RETRIES - attempt`
by one). On `Err` with the ceiling not reached the loop sleeps `retry_delay`
seconds and then sets `retry_delay = min(retry_delay * 2, 10)`. -/
def bootGo {E P : Type} (connect : Nat → Except E P) :
    Nat → Nat → Nat → List Nat → BootResult E P
  | fuel, attempt, retry_delay, sleeps =>
    match connect attempt with
    | .ok pool => .ok pool attempt sleeps
    | .error e =>
      if MAX_RETRIES ≤ attempt then
        .err e attempt sleeps
      else
        match fuel with
        | 0 => .err e attempt sleeps
        | f + 1 =>
          bootGo connect f (attempt + 1) (min (retry_delay * 2) 10)
            (sleeps ++ [retry_delay])

/-- Source, lines 66-99: `retry_delay` starts at 1, `attempt` at 0 and is
incremented to 1 at the top of the first iteration. -/
def runBootstrap {E P : Type} (connect : Nat → Except E P) : BootResult E P :=
  bootGo connect MAX_RETRIES 1 1 []

/-- The backoff schedule: the first `m` sleep durations are
`min (2 ^ i) 10` for `i = 0, …, m - 1`, i.e. 1, 2, 4, 8, 10, 10, …. -/
def expectedSleeps (m : Nat) : List Nat :=
  (List.range m).map (fun i => min (2 ^ i) 10)

/-- Result of `main` after the bootstrap: either the propagated connection
error, or the propagated `TcpListener::bind` error, or the server loop. -/
inductive Outcome (E : Type) where
  | connError (e : E)
  | bindError
  | serving (port : Nat)
deriving DecidableEq, Repr

/-- Observable trace of `main`: the final outcome, how many connection
attempts were made, which sleeps were performed, and how many times
`TcpListener::bind` was attempted. -/
structure MainResult (E : Type) where
  outcome : Outcome E
  connAttempts : Nat
  sleeps : List Nat
  bindAttempts : Nat
deriving DecidableEq, Repr

/-! ## Configuration parsing (source lines 44-63 and 136-139) -/

/-- Numeric value of a digit string (most significant digit first). -/
def digitsVal (l : List Char) : Nat :=
  l.foldl (fun acc c => acc * 10 + (c.toNat - 48)) 0

/-- Rust's `from_str` for unsigned integers accepts one optional leading `+`
sign before the digits. -/
def dropPlusSign (l : List Char) : List Char :=
  if l.head? = some '+' then l.tail else l

/-- Rust's `str::parse::<uN>()` on an unsigned integer type whose maximum
value is `maxVal`: an optional leading `+` followed by at least one ASCII
digit, rejected (`Err`) when empty, when any other character occurs (in
particular a leading `-`), or when the value overflows the target type. -/
def rustParseUnsigned (maxVal : Nat) (s : String) : Option Nat :=
  let l := dropPlusSign s.toList
  if !l.isEmpty && l.all Char.isDigit then
    if digitsVal l ≤ maxVal then some (digitsVal l) else none
  else none

/-- Largest value of Rust's `u16`. -/
def U16_MAX : Nat := 65535

/-- Largest value of Rust's `u32`. -/
def U32_MAX : Nat := 2 ^ 32 - 1

/-- Largest value of Rust's `u64`. -/
def U64_MAX : Nat := 2 ^ 64 - 1

/-- Source, lines 44-63: `env::var(name).ok().and_then(|v| v.parse::<uN>().ok()).unwrap_or(default)`.
The process environment is abstracted as `env : String → Option String`. -/
def envNumOr (env : String → Option String) (name : String)
    (maxVal default : Nat) : Nat :=
  ((env name).bind (fun v => rustParseUnsigned maxVal v)).getD default

/-- Source, line 44: `DB_POOL_MAX`, parsed as `u32`, default 50. -/
def maxConnectionsOf (env : String → Option String) : Nat :=
  envNumOr env "DB_POOL_MAX" U32_MAX 50

/-- Source, line 48: `DB_POOL_MIN`, parsed as `u32`, default 10. -/
def minConnectionsOf (env : String → Option String) : Nat :=
  envNumOr env "DB_POOL_MIN" U32_MAX 10

/-- Source, line 52: `DB_POOL_ACQUIRE_TIMEOUT`, parsed as `u64`, default 10. -/
def acquireTimeoutOf (env : String → Option String) : Nat :=
  envNumOr env "DB_POOL_ACQUIRE_TIMEOUT" U64_MAX 10

/-- Source, line 56: `DB_POOL_IDLE_TIMEOUT`, parsed as `u64`, default 300. -/
def idleTimeoutOf (env : String → Option String) : Nat :=
  envNumOr env "DB_POOL_IDLE_TIMEOUT" U64_MAX 300

/-- Source, line 60: `DB_POOL_MAX_LIFETIME`, parsed as `u64`, default 1800. -/
def maxLifetimeOf (env : String → Option String) : Nat :=
  envNumOr env "DB_POOL_MAX_LIFETIME" U64_MAX 1800

/-- Source, lines 136-139:
`env::var("PORT").unwrap_or_else(|_| "8080".to_string()).parse::<u16>().unwrap_or(8080)`. -/
def portOf (env : String → Option String) : Nat :=
  (rustParseUnsigned U16_MAX ((env "PORT").getD "8080")).getD 8080

/-- Source, lines 70-146 of `main`: run the bootstrap loop; on `Err` the error
propagates out of `main` (no listener is ever bound). On `Ok`, read `PORT` and
attempt `TcpListener::bind` exactly once — `.await?` propagates a bind failure
with no retry — and otherwise serve. Whether the single bind succeeds is
abstracted as `bindOk`. -/
def runMain {E P : Type} (connect : Nat → Except E P)
    (env : String → Option String) (bindOk : Bool) : MainResult E :=
  match runBootstrap connect with
  | .err e a s => ⟨.connError e, a, s, 0⟩
  | .ok _ a s =>
    if bindOk then ⟨.serving (portOf env), a, s, 1⟩
    else ⟨.bindError, a, s, 1⟩

/-! ## Route table composition (source lines 108-134) -/

/-- HTTP methods used by the route registrations in `main`. -/
inductive Method where
  | GET
  | POST
  | PUT
  | DELETE
deriving DecidableEq, Repr

/-- One registered route: the axum path pattern, the method, the handler
name, and whether the `auth_middleware` layer wraps it. -/
structure RouteEntry where
  path : String
  method : Method
  handler : String
  authWrapped : Bool
deriving DecidableEq, Repr

/-- An axum `Router` is modelled by its list of registered routes. -/
abbrev Router := List RouteEntry

/-- `Router::new()`. -/
def Router.new : Router := []

/-- `.route(path, m1(h1).m2(h2)...)`: register the given method/handler pairs
at `path`, not yet wrapped by any middleware. -/
def Router.route (r : Router) (path : String)
    (ms : List (Method × String)) : Router :=
  r ++ ms.map (fun mh => ⟨path, mh.1, mh.2, false⟩)

/-- `.layer(middleware::from_fn_with_state(auth_config, auth_middleware))`:
every route already registered on this router is wrapped by the auth
middleware (axum layers apply to all routes present when the layer is added). -/
def Router.layerAuth (r : Router) : Router :=
  r.map (fun e => { e with authWrapped := true })

/-- `.merge(other)`: combine the two route sets into one dispatch surface. -/
def Router.mergeWith (r other : Router) : Router :=
  r ++ other

/-- Source, lines 108-119: the protected router, wrapped by the auth layer. -/
def protected_routes : Router :=
  (Router.new.route "/auth/me" [(.GET, "me")]
    |>.route "/users" [(.POST, "create_user"), (.GET, "list_users")]
    |>.route "/users/{userId}"
        [(.GET, "get_user"), (.PUT, "update_user"), (.DELETE, "delete_user")]
    |>.route "/posts" [(.POST, "create_post")]
    |>.route "/posts/{post_id}" [(.DELETE, "delete_post")]
    |>.route "/posts/{post_id}/comments" [(.POST, "create_comment")]
    |>.route "/posts/{post_id}/like"
        [(.POST, "like_post"), (.DELETE, "unlike_post")]).layerAuth

/-- Source, lines 122-127: the public registrations made directly on `app`
before the merge (no auth layer is ever applied to `app` itself, so these
stay unwrapped). -/
def public_routes : Router :=
  Router.new.route "/auth/login" [(.POST, "login")]
    |>.route "/posts" [(.GET, "list_posts")]
    |>.route "/posts/{post_id}" [(.GET, "get_post")]
    |>.route "/posts/{post_id}/comments" [(.GET, "list_comments")]

/-- Source, lines 122-133: `app` = public registrations merged with
`protected_routes` (the CORS layer and `with_state` do not change the route
set or the auth wrapping). -/
def app_routes : Router :=
  public_routes.mergeWith protected_routes

/-- Dispatch lookup: the first registered route whose path pattern and method
match the request. -/
def findRoute (path : String) (m : Method) : Option RouteEntry :=
  List.find? (fun e => e.path == path && e.method == m) app_routes

/-- Result of dispatching one request. -/
inductive DispatchResult where
  | rejected
  | handled (handler : String)
  | notFound
deriving DecidableEq, Repr

/-- Dispatch one request against `app_routes`. `validCreds` abstracts whether
the request carries credential material that `auth_middleware` accepts (the
middleware's cryptographic internals are out of scope). A route wrapped by
the auth layer runs the middleware strictly before its handler, so invalid
credentials short-circuit to a rejection and the handler never executes; the
request body is not an input to this decision. -/
def dispatch (path : String) (m : Method) (validCreds : Bool) : DispatchResult :=
  match findRoute path m with
  | none => .notFound
  | some e => if e.authWrapped && !validCreds then .rejected else .handled e.handler

/-- The (path pattern, method) pairs of a router. -/
def Router.pairs (r : Router) : List (String × Method) :=
  r.map (fun e => (e.path, e.method))

/-! ## Lemmas about the retry loop -/

theorem bootGo_ok {E P : Type} {connect : Nat → Except E P} {a : Nat} {p : P}
    (h : connect a = .ok p) (fuel d : Nat) (l : List Nat) :
    bootGo connect fuel a d l = .ok p a l := by
  cases fuel <;> simp [bootGo, h]

theorem bootGo_errStop {E P : Type} {connect : Nat → Except E P} {a : Nat} {e : E}
    (h : connect a = .error e) (ha : MAX_RETRIES ≤ a) (fuel d : Nat) (l : List Nat) :
    bootGo connect fuel a d l = .err e a l := by
  cases fuel <;> simp [bootGo, h, ha]

theorem bootGo_errStep {E P : Type} {connect : Nat → Except E P} {a : Nat} {e : E}
    (h : connect a = .error e) (ha : a < MAX_RETRIES) (fuel d : Nat) (l : List Nat) :
    bootGo connect (fuel + 1) a d l =
      bootGo connect fuel (a + 1) (min (d * 2) 10) (l ++ [d]) := by
  conv_lhs => rw [bootGo.eq_def]
  simp [h, Nat.not_le.mpr ha]

theorem min_double_cap (x : Nat) : min (min x 10 * 2) 10 = min (x * 2) 10 := by
  rcases Nat.le_total x 10 with h | h
  · rw [Nat.min_eq_left h]
  · rw [Nat.min_eq_right h, Nat.min_eq_right (by omega), Nat.min_eq_right (by omega)]

theorem expectedSleeps_succ (m : Nat) :
    expectedSleeps (m + 1) = expectedSleeps m ++ [min (2 ^ m) 10] := by
  simp [expectedSleeps, List.range_succ]

theorem expectedSleeps_length (m : Nat) : (expectedSleeps m).length = m := by
  simp [expectedSleeps]

/-- Invariant march: if attempts `1, …, a - 1` all fail, the loop reaches
attempt `a` with delay `min (2 ^ (a - 1)) 10`, having slept exactly the
first `a - 1` expected delays. -/
theorem runBootstrap_march {E P : Type} (connect : Nat → Except E P) (a : Nat)
    (h1 : 1 ≤ a) (h2 : a ≤ MAX_RETRIES)
    (hfail : ∀ i, 1 ≤ i → i < a → ∃ e, connect i = .error e) :
    runBootstrap connect =
      bootGo connect (MAX_RETRIES + 1 - a) a (min (2 ^ (a - 1)) 10)
        (expectedSleeps (a - 1)) := by
  induction a, h1 using Nat.le_induction with
  | base =>
    rw [Nat.add_sub_cancel]
    norm_num [runBootstrap, expectedSleeps]
  | succ a ha ih =>
    obtain ⟨e, he⟩ := hfail a ha (Nat.lt_succ_self a)
    have hstep := ih (by omega) (fun i hi hia => hfail i hi (by omega))
    rw [hstep]
    have hfuel : MAX_RETRIES + 1 - a = (MAX_RETRIES + 1 - (a + 1)) + 1 := by
      simp only [MAX_RETRIES] at h2 ⊢; omega
    rw [hfuel, bootGo_errStep he (by simp only [MAX_RETRIES] at h2 ⊢; omega)]
    obtain ⟨b, rfl⟩ : ∃ b, a = b + 1 := ⟨a - 1, by omega⟩
    rw [min_double_cap, ← expectedSleeps_succ]
    norm_num [pow_succ]

/-- Whatever the loop does, its sleep list extends the accumulator. -/
theorem bootGo_sleeps_extend {E P : Type} (connect : Nat → Except E P)
    (fuel : Nat) : ∀ (a d : Nat) (l : List Nat),
    ∃ t, sleepsOf (bootGo connect fuel a d l) = l ++ t := by
  induction fuel with
  | zero =>
    intro a d l
    cases h : connect a <;> simp [bootGo, h, sleepsOf]
  | succ f ih =>
    intro a d l
    cases h : connect a with
    | ok p => simp [bootGo, h, sleepsOf]
    | error e =>
      by_cases ha : MAX_RETRIES ≤ a
      · simp [bootGo, h, ha, sleepsOf]
      · rw [bootGo_errStep h (Nat.not_le.mp ha)]
        obtain ⟨t, ht⟩ := ih (a + 1) (min (d * 2) 10) (l ++ [d])
        exact ⟨d :: t, by simpa using ht⟩

/-- When every attempt up to the ceiling fails, the loop stops at attempt 10
with the last attempt's error and the nine expected sleeps. -/
theorem runBootstrap_allFail {E P : Type} (connect : Nat → Except E P) (e10 : E)
    (hfail : ∀ i, 1 ≤ i → i ≤ 9 → ∃ e, connect i = .error e)
    (h10 : connect 10 = .error e10) :
    runBootstrap connect = .err e10 10 (expectedSleeps 9) := by
  have hm := runBootstrap_march connect 10 (by norm_num)
    (by norm_num [MAX_RETRIES]) (fun i hi hilt => hfail i hi (by omega))
  rw [hm, bootGo_errStop h10 (by norm_num [MAX_RETRIES])]

/-! ## Claim theorems: the bootstrap retry loop -/

/-- C1: in the bootstrap retry loop, for every attempt number `n` with
`1 ≤ n ≤ 9` whose connection attempt fails (which presupposes attempts
`1, …, n` all failed, else attempt `n` never runs), the delay slept before
attempt `n + 1` equals `min (2 ^ (n - 1)) 10` seconds; the 10-second cap is
first reached at the delay preceding attempt 6, i.e. the delay is 10 exactly
when `5 ≤ n`. -/
theorem backoff_delay_before_next_attempt {E P : Type}
    (connect : Nat → Except E P) (n : Nat) (h1 : 1 ≤ n) (h2 : n ≤ 9)
    (hfail : ∀ i, 1 ≤ i → i ≤ n → ∃ e, connect i = .error e) :
    (sleepsOf (runBootstrap connect)).get? (n - 1) =
        some (min (2 ^ (n - 1)) 10) ∧
      (min (2 ^ (n - 1)) 10 = 10 ↔ 5 ≤ n) := by
  have hiff : min (2 ^ (n - 1)) 10 = 10 ↔ 5 ≤ n := by
    interval_cases n <;> decide
  refine ⟨?_, hiff⟩
  have hm := runBootstrap_march connect (n + 1) (by omega)
    (by simp only [MAX_RETRIES]; omega) (fun i hi hilt => hfail i hi (by omega))
  rw [hm]
  obtain ⟨t, ht⟩ := bootGo_sleeps_extend connect (MAX_RETRIES + 1 - (n + 1))
    (n + 1) (min (2 ^ (n + 1 - 1)) 10) (expectedSleeps (n + 1 - 1))
  rw [ht, Nat.add_sub_cancel, List.get?_eq_getElem?,
    List.getElem?_append_left (by rw [expectedSleeps_length]; omega)]
  simp [expectedSleeps, List.getElem?_range (show n - 1 < n by omega)]

/-- Witness for C1 at `n = 5` with every attempt failing: the fifth sleep
(the delay before attempt 6) is the first to hit the 10-second cap. -/
theorem backoff_delay_before_next_attempt_witness :
    (sleepsOf (runBootstrap (fun _ => (Except.error 0 : Except Nat Unit)))).get?
        (5 - 1) = some (min (2 ^ (5 - 1)) 10) ∧
      (min (2 ^ (5 - 1)) 10 = 10 ↔ 5 ≤ 5) :=
  backoff_delay_before_next_attempt _ 5 (by norm_num) (by norm_num)
    (fun _ _ _ => ⟨0, rfl⟩)

/-- C2: if attempts 1-9 fail and attempt 10 fails with error `e10`, the loop
stops — `connAttempts = 10`, so no 11th attempt occurs — and `main` returns
the propagated connection error `e10` without ever attempting to bind the
listener (`bindAttempts = 0`), for any environment and any would-be bind
outcome. -/
theorem retry_ceiling_terminates_process {E P : Type}
    (connect : Nat → Except E P) (env : String → Option String)
    (bindOk : Bool) (e10 : E)
    (hfail : ∀ i, 1 ≤ i → i ≤ 9 → ∃ e, connect i = .error e)
    (h10 : connect 10 = .error e10) :
    runMain connect env bindOk =
      ⟨.connError e10, 10, expectedSleeps 9, 0⟩ := by
  simp [runMain, runBootstrap_allFail connect e10 hfail h10]

/-- Witness for C2: a store that always fails with error 0. -/
theorem retry_ceiling_terminates_process_witness :
    runMain (fun _ => (Except.error 0 : Except Nat Unit)) (fun _ => none) true =
      ⟨.connError 0, 10, expectedSleeps 9, 0⟩ :=
  retry_ceiling_terminates_process _ _ true 0 (fun _ _ _ => ⟨0, rfl⟩) rfl

/-- C3: if attempts `1, …, k - 1` fail and attempt `k` (`1 ≤ k ≤ 10`) returns
pool `p`, the loop breaks immediately with that pool at attempt counter `k`,
and exactly `k - 1` backoff sleeps have occurred. -/
theorem success_on_attempt_k {E P : Type} (connect : Nat → Except E P)
    (k : Nat) (p : P) (h1 : 1 ≤ k) (h2 : k ≤ 10) (hk : connect k = .ok p)
    (hfail : ∀ i, 1 ≤ i → i < k → ∃ e, connect i = .error e) :
    runBootstrap connect = .ok p k (expectedSleeps (k - 1)) ∧
      (expectedSleeps (k - 1)).length = k - 1 := by
  have hm := runBootstrap_march connect k h1 h2 hfail
  rw [hm, bootGo_ok hk]
  exact ⟨rfl, expectedSleeps_length _⟩

/-- Witness for C3 at `k = 3`: failures on attempts 1 and 2, success on 3,
hence sleeps `[1, 2]` of length 2. -/
theorem success_on_attempt_k_witness :
    runBootstrap
        (fun i => if i = 3 then Except.ok () else (Except.error 0 : Except Nat Unit)) =
        .ok () 3 (expectedSleeps (3 - 1)) ∧
      (expectedSleeps (3 - 1)).length = 3 - 1 :=
  success_on_attempt_k _ 3 () (by norm_num) (by norm_num) rfl
    (by intro i hi hik; interval_cases i <;> exact ⟨0, rfl⟩)

/-- C4 counterexample: with a permanently unreachable store (every attempt
fails), the total of the sleep durations is 65 seconds
(1+2+4+8+10+10+10+10+10 over nine sleeps), not 25 seconds as claimed. -/
theorem unreachable_store_sleep_total_not_25 :
    (sleepsOf (runBootstrap (fun _ => (Except.error 0 : Except Nat Unit)))).sum = 65 ∧
      ¬ (sleepsOf (runBootstrap
          (fun _ => (Except.error 0 : Except Nat Unit)))).sum = 25 := by
  decide

/-- C4 (amended): when every connection attempt fails, `main` terminates
after exactly 10 attempts with the propagated connection error of the last
attempt and never binds a listener, and the total time slept across the nine
backoff delays is 1+2+4+8+10+10+10+10+10 = 65 seconds (not 25). -/
theorem unreachable_store_terminates_after_65s {E P : Type}
    (connect : Nat → Except E P) (env : String → Option String)
    (bindOk : Bool) (e10 : E)
    (hfail : ∀ i, 1 ≤ i → i ≤ 9 → ∃ e, connect i = .error e)
    (h10 : connect 10 = .error e10) :
    runMain connect env bindOk = ⟨.connError e10, 10, expectedSleeps 9, 0⟩ ∧
      (expectedSleeps 9).sum = 65 ∧ (expectedSleeps 9).length = 9 := by
  refine ⟨?_, by decide, by decide⟩
  simp [runMain, runBootstrap_allFail connect e10 hfail h10]

/-- Witness for the amended C4: the always-failing store again. -/
theorem unreachable_store_terminates_after_65s_witness :
    runMain (fun _ => (Except.error 0 : Except Nat Unit)) (fun _ => none) false =
        ⟨.connError 0, 10, expectedSleeps 9, 0⟩ ∧
      (expectedSleeps 9).sum = 65 ∧ (expectedSleeps 9).length = 9 :=
  unreachable_store_terminates_after_65s _ _ false 0 (fun _ _ _ => ⟨0, rfl⟩) rfl

/-- C9: once the bootstrap has produced a pool, a failure of the single
`TcpListener::bind` call is fatal: `main` ends with the bind error after
exactly one bind attempt — no retry happens at this layer, unlike the
connection loop. -/
theorem bind_failure_fatal_no_retry {E P : Type} (connect : Nat → Except E P)
    (env : String → Option String) (p : P) (a : Nat) (s : List Nat)
    (hok : runBootstrap connect = .ok p a s) :
    runMain connect env false = ⟨.bindError, a, s, 1⟩ := by
  simp [runMain, hok]

/-- Witness for C9: first attempt succeeds, bind fails. -/
theorem bind_failure_fatal_no_retry_witness :
    runMain (fun _ => (Except.ok () : Except Nat Unit)) (fun _ => none) false =
      ⟨.bindError, 1, [], 1⟩ :=
  bind_failure_fatal_no_retry _ _ () 1 [] (by decide)

/-! ## Claim theorems: route table and auth gate -/

/-- C5: the protected registrations are exactly the eleven path+method pairs
listed in the spec, every one of them carries the auth wrapping in the merged
table, and dispatching any of them without valid credentials is rejected
before any handler runs (the request body is not an input to the decision). -/
theorem protected_routes_all_gated :
    protected_routes.pairs =
        [("/auth/me", .GET), ("/users", .POST), ("/users", .GET),
         ("/users/{userId}", .GET), ("/users/{userId}", .PUT),
         ("/users/{userId}", .DELETE), ("/posts", .POST),
         ("/posts/{post_id}", .DELETE), ("/posts/{post_id}/comments", .POST),
         ("/posts/{post_id}/like", .POST), ("/posts/{post_id}/like", .DELETE)] ∧
      (∀ pm ∈ protected_routes.pairs, dispatch pm.1 pm.2 false = .rejected) ∧
      (∀ e ∈ app_routes,
        (e.path, e.method) ∈ protected_routes.pairs → e.authWrapped = true) := by
  exact ⟨by decide, by decide, by decide⟩

/-- Witness for C5: `GET /auth/me` without credentials is rejected. -/
theorem protected_routes_all_gated_witness :
    dispatch "/auth/me" Method.GET false = .rejected :=
  protected_routes_all_gated.2.1 ("/auth/me", Method.GET) (by decide)

/-- C6: the public registrations are exactly the four pairs listed in the
spec; for each of them the dispatched route is not wrapped by the auth
middleware, and the request reaches its handler whether or not credentials
are valid. -/
theorem public_routes_skip_auth :
    public_routes.pairs =
        [("/auth/login", .POST), ("/posts", .GET), ("/posts/{post_id}", .GET),
         ("/posts/{post_id}/comments", .GET)] ∧
      ∀ e ∈ public_routes,
        (findRoute e.path e.method).map RouteEntry.authWrapped = some false ∧
          ∀ creds, dispatch e.path e.method creds = .handled e.handler := by
  exact ⟨by decide, by decide⟩

/-- Witness for C6: `GET /posts` without credentials reaches `list_posts`. -/
theorem public_routes_skip_auth_witness :
    dispatch "/posts" Method.GET false = .handled "list_posts" :=
  (public_routes_skip_auth.2 ⟨"/posts", Method.GET, "list_posts", false⟩
    (by decide)).2 false

/-- C7: the merged table is the public registrations followed by the
protected ones, and the two sets of (path pattern, method) pairs are
disjoint: no pair appears in both. -/
theorem public_protected_disjoint :
    app_routes.pairs = public_routes.pairs ++ protected_routes.pairs ∧
      ∀ pm ∈ public_routes.pairs, pm ∉ protected_routes.pairs := by
  exact ⟨by decide, by decide⟩

/-- Witness for C7: the login route is not in the protected set. -/
theorem public_protected_disjoint_witness :
    ("/auth/login", Method.POST) ∉ protected_routes.pairs :=
  public_protected_disjoint.2 ("/auth/login", Method.POST) (by decide)

/-! ## Claim theorems: environment configuration -/

/-- C8: each configuration value is read from its environment variable with a
silent fallback to its stated default: `PORT=9999` yields 9999, `PORT=abc`
yields 8080, and in an environment where every variable is absent or every
variable holds the unparseable string `abc`, all six values equal their
defaults (8080, 50, 10, 10, 300, 1800); moreover, generally, whenever a
variable is set to any string its parser rejects, the default is used. The
reading functions are total, so no error is ever surfaced. -/
theorem env_config_silent_fallback
    (envP envA envB : String → Option String)
    (hP : envP "PORT" = some "9999")
    (hA : ∀ name, envA name = none)
    (hB : ∀ name, envB name = some "abc") :
    (portOf envP = 9999) ∧
      (portOf envA = 8080 ∧ maxConnectionsOf envA = 50 ∧
        minConnectionsOf envA = 10 ∧ acquireTimeoutOf envA = 10 ∧
        idleTimeoutOf envA = 300 ∧ maxLifetimeOf envA = 1800) ∧
      (portOf envB = 8080 ∧ maxConnectionsOf envB = 50 ∧
        minConnectionsOf envB = 10 ∧ acquireTimeoutOf envB = 10 ∧
        idleTimeoutOf envB = 300 ∧ maxLifetimeOf envB = 1800) ∧
      (∀ env s, env "PORT" = some s →
        rustParseUnsigned U16_MAX s = none → portOf env = 8080) ∧
      (∀ env s, env "DB_POOL_MAX" = some s →
        rustParseUnsigned U32_MAX s = none → maxConnectionsOf env = 50) ∧
      (∀ env s, env "DB_POOL_MIN" = some s →
        rustParseUnsigned U32_MAX s = none → minConnectionsOf env = 10) ∧
      (∀ env s, env "DB_POOL_ACQUIRE_TIMEOUT" = some s →
        rustParseUnsigned U64_MAX s = none → acquireTimeoutOf env = 10) ∧
      (∀ env s, env "DB_POOL_IDLE_TIMEOUT" = some s →
        rustParseUnsigned U64_MAX s = none → idleTimeoutOf env = 300) ∧
      (∀ env s, env "DB_POOL_MAX_LIFETIME" = some s →
        rustParseUnsigned U64_MAX s = none → maxLifetimeOf env = 1800) := by
  refine ⟨?_, ?_, ?_, ?_, ?_, ?_, ?_, ?_, ?_⟩
  · simp only [portOf, hP]; decide
  · simp only [portOf, maxConnectionsOf, minConnectionsOf, acquireTimeoutOf,
      idleTimeoutOf, maxLifetimeOf, envNumOr, hA]
    decide
  · simp only [portOf, maxConnectionsOf, minConnectionsOf, acquireTimeoutOf,
      idleTimeoutOf, maxLifetimeOf, envNumOr, hB]
    decide
  · intro env s h1 h2; simp [portOf, h1, h2]
  · intro env s h1 h2; simp [maxConnectionsOf, envNumOr, h1, h2]
  · intro env s h1 h2; simp [minConnectionsOf, envNumOr, h1, h2]
  · intro env s h1 h2; simp [acquireTimeoutOf, envNumOr, h1, h2]
  · intro env s h1 h2; simp [idleTimeoutOf, envNumOr, h1, h2]
  · intro env s h1 h2; simp [maxLifetimeOf, envNumOr, h1, h2]

/-- Witness for C8: `PORT=9999` binds 9999, an empty environment defaults
`DB_POOL_MAX` to 50, and `PORT=abc` falls back to 8080. -/
theorem env_config_silent_fallback_witness :
    portOf (fun name => if name = "PORT" then some "9999" else none) = 9999 ∧
      maxConnectionsOf (fun _ => none) = 50 ∧
      portOf (fun _ => some "abc") = 8080 := by
  have h := env_config_silent_fallback
    (fun name => if name = "PORT" then some "9999" else none)
    (fun _ => none) (fun _ => some "abc")
    (by decide) (fun _ => rfl) (fun _ => rfl)
  exact ⟨h.1, h.2.1.2.1, h.2.2.1.1⟩

/-- A well-formed digit string whose value exceeds the target type's maximum
is rejected by the parse, exactly like a malformed string. -/
theorem rustParseUnsigned_overflow (maxVal : Nat) (s : String)
    (hd : s.toList.all Char.isDigit = true)
    (hbig : maxVal < digitsVal s.toList) :
    rustParseUnsigned maxVal s = none := by
  have hplus : dropPlusSign s.toList = s.toList := by
    unfold dropPlusSign
    cases hl : s.toList with
    | nil => simp
    | cons c cs =>
      rw [hl] at hd
      simp only [List.all_cons, Bool.and_eq_true] at hd
      have hc : c ≠ '+' := by
        intro h
        rw [h] at hd
        exact absurd hd.1 (by decide)
      simp [hc]
  simp only [rustParseUnsigned, hplus]
  split
  · exact if_neg (Nat.not_le.mpr hbig)
  · rfl

/-- A string starting with `-` (in particular any negative integer) is
rejected by the unsigned parse. -/
theorem rustParseUnsigned_negative (maxVal : Nat) (s : String) (r : List Char)
    (h : s.toList = '-' :: r) : rustParseUnsigned maxVal s = none := by
  have hl : dropPlusSign s.toList = '-' :: r := by rw [h]; rfl
  have hmd : ('-').isDigit = false := by decide
  simp only [rustParseUnsigned, hl]
  split
  next hcond => simp [List.all_cons, hmd] at hcond
  next => rfl

/-- C10: because the configuration values are parsed into fixed-width
unsigned types, a numeric value outside the target range — a `PORT` above
65535, a pool size above the `u32` maximum, a timeout above the `u64`
maximum, or any negative value — is treated exactly like a parse failure and
silently replaced by the default: in particular `PORT=70000` yields 8080 and
`DB_POOL_MAX=-5` yields 50. -/
theorem out_of_range_env_values_fall_back
    (env1 env2 env3 env4 : String → Option String)
    (s t u : String) (r : List Char)
    (h1 : env1 "PORT" = some s) (hsd : s.toList.all Char.isDigit = true)
    (hsbig : U16_MAX < digitsVal s.toList)
    (h2 : env2 "DB_POOL_MAX" = some t) (htd : t.toList.all Char.isDigit = true)
    (htbig : U32_MAX < digitsVal t.toList)
    (h3 : env3 "DB_POOL_IDLE_TIMEOUT" = some u)
    (hud : u.toList.all Char.isDigit = true)
    (hubig : U64_MAX < digitsVal u.toList)
    (h4 : env4 "DB_POOL_MIN" = some ⟨'-' :: r⟩) :
    portOf env1 = 8080 ∧ maxConnectionsOf env2 = 50 ∧
      idleTimeoutOf env3 = 300 ∧ minConnectionsOf env4 = 10 ∧
      portOf (fun name => if name = "PORT" then some "70000" else none) = 8080 ∧
      maxConnectionsOf
        (fun name => if name = "DB_POOL_MAX" then some "-5" else none) = 50 := by
  refine ⟨?_, ?_, ?_, ?_, by decide, by decide⟩
  · simp [portOf, h1, rustParseUnsigned_overflow U16_MAX s hsd hsbig]
  · simp [maxConnectionsOf, envNumOr, h2,
      rustParseUnsigned_overflow U32_MAX t htd htbig]
  · simp [idleTimeoutOf, envNumOr, h3,
      rustParseUnsigned_overflow U64_MAX u hud hubig]
  · simp [minConnectionsOf, envNumOr, h4,
      rustParseUnsigned_negative U32_MAX ⟨'-' :: r⟩ r rfl]

/-- Witness for C10: `PORT=70000` (in range for an integer, not for `u16`),
`DB_POOL_MAX` above the `u32` maximum, `DB_POOL_IDLE_TIMEOUT` above the `u64`
maximum, and a negative `DB_POOL_MIN` all fall back to their defaults. -/
theorem out_of_range_env_values_fall_back_witness :
    portOf (fun name => if name = "PORT" then some "70000" else none) = 8080 ∧
      maxConnectionsOf
        (fun name => if name = "DB_POOL_MAX" then some "4294967296" else none) = 50 ∧
      idleTimeoutOf (fun name =>
        if name = "DB_POOL_IDLE_TIMEOUT" then some "18446744073709551616" else none) = 300 ∧
      minConnectionsOf
        (fun name => if name = "DB_POOL_MIN" then some ⟨'-' :: ['5']⟩ else none) = 10 ∧
      portOf (fun name => if name = "PORT" then some "70000" else none) = 8080 ∧
      maxConnectionsOf
        (fun name => if name = "DB_POOL_MAX" then some "-5" else none) = 50 :=
  out_of_range_env_values_fall_back
    (fun name => if name = "PORT" then some "70000" else none)
    (fun name => if name = "DB_POOL_MAX" then some "4294967296" else none)
    (fun name => if name = "DB_POOL_IDLE_TIMEOUT" then some "18446744073709551616" else none)
    (fun name => if name = "DB_POOL_MIN" then some ⟨'-' :: ['5']⟩ else none)
    "70000" "4294967296" "18446744073709551616" ['5']
    (by decide) (by decide) (by decide)
    (by decide) (by decide) (by decide)
    (by decide) (by decide) (by decide)
    (by decide)

end RustAxum
